import Mathlib

/-!
Verification of the scrape-and-checkpoint core of a two-site web scraper
(a people-search directory scraper, `public_data_digger_scraper.py`, and a
crowdfunding-platform scraper, `scrape_kickstarter.py`).

The embedding is shallow: the filesystem is an association list from paths to
file contents, HTTP fetching and the external `dateparser` library are oracles
passed in as function-valued environment fields, and the BeautifulSoup DOM
selector heuristics (declared out of scope by the design document) are
pre-applied, so a fetched page arrives as its status code, raw text, and the
list of already-located result blocks.  Everything the Python control flow
does with those ingredients — checkpoint short-circuiting, the result-count
cap, record augmentation, artifact writes, batch-loop termination checks,
aggregation — is translated statement by statement.  Python exceptions
(`TypeError` from `len(None)`, `IndexError` from `[0]` on an empty list) are
modelled with `Except`.
-/

set_option autoImplicit false

namespace Py

/-- ASCII model of Python `str.lower()` (the scraper's inputs are ASCII names
and URLs). -/
def lower (s : String) : String := ⟨s.data.map Char.toLower⟩

/-- ASCII model of Python `str.upper()`. -/
def upper (s : String) : String := ⟨s.data.map Char.toUpper⟩

/-- Model of Python `str.strip()`: drop whitespace from both ends. -/
def strip (s : String) : String :=
  ⟨((s.data.dropWhile Char.isWhitespace).reverse.dropWhile Char.isWhitespace).reverse⟩

/-- Whether `pat` occurs at the start of `s` (on character lists). -/
def startsWithL : List Char → List Char → Bool
  | [], _ => true
  | _ :: _, [] => false
  | p :: ps, c :: cs => p == c && startsWithL ps cs

/-- Whether `pat` occurs somewhere in `s` (on character lists). -/
def hasSubL (pat : List Char) : List Char → Bool
  | [] => pat.isEmpty
  | c :: cs => startsWithL pat (c :: cs) || hasSubL pat cs

/-- Model of Python `pat in s` substring membership. -/
def inStr (pat s : String) : Bool := hasSubL pat.data s.data

/-- Model of Python `s.endswith(suf)`. -/
def endsWith (s suf : String) : Bool := startsWithL suf.data.reverse s.data.reverse

/-- Split a character list at every occurrence of a separator character
(the semantics of `str.split` with a one-character separator); `cur` holds
the reversed current segment. -/
def splitOnChar (sep : Char) (cur : List Char) : List Char → List (List Char)
  | [] => [cur.reverse]
  | c :: cs =>
    if c == sep then cur.reverse :: splitOnChar sep [] cs
    else splitOnChar sep (c :: cur) cs

/-- Drop everything up to and including the first occurrence of `sep`;
`none` when `sep` does not occur. -/
def dropThrough (sep : List Char) : List Char → Option (List Char)
  | [] => none
  | c :: cs =>
    if startsWithL sep (c :: cs) then some (List.drop (sep.length - 1) cs)
    else dropThrough sep cs

/-- A word character in the sense of the regex class `\w` (ASCII). -/
def isWordChar (c : Char) : Bool := c.isAlphanum || c == '_'

/-- Model of `re.sub(r'[\W]', '_', s)`: replace every non-word character by
an underscore. -/
def subNonWord (s : String) : String :=
  ⟨s.data.map (fun c => if isWordChar c then c else '_')⟩

/-- Model of `re.sub(r'[_+]', '_', s)`: the character class replaces each
single underscore or plus sign by an underscore. -/
def subUnderscorePlus (s : String) : String :=
  ⟨s.data.map (fun c => if c == '_' || c == '+' then '_' else c)⟩

/-- Model of `s.replace(':', '')`: remove every colon. -/
def removeColon (s : String) : String := ⟨s.data.filter (fun c => c != ':')⟩

end Py

namespace PDD

/-- A Python exception kind reachable in the scraper's parsing code. -/
inductive PyErr where
  | typeError
  | indexError
deriving DecidableEq

/-- One search-result block of the search page, as located by the
(out-of-scope) BeautifulSoup selectors of `datadigger_by_name`: the
detail link resolved by `complete_url_with_anchor`, its anchor text, the
`stripped_strings` display text, the optional icon-marked fields, and the
stripped texts of the block's named child elements (the `rsb.name` loop). -/
structure ResultBlock where
  detailUrl : String
  detailUrlText : String
  displayText : String
  homeAddress : Option String
  emailAddress : Option String
  phoneNumber : Option String
  childTexts : List String
deriving DecidableEq

/-- A search-page HTTP response: `requests.get` status code, `page.text`,
and the result blocks BeautifulSoup finds under class `result-body`. -/
structure SResponse where
  status : Nat
  text : String
  blocks : List ResultBlock
deriving DecidableEq

/-- One parsed Record of `datadigger_by_name`, a dictionary with optional
keys; fields absent from the Python dict are `none`. -/
structure Rec where
  detail_url : String
  detail_url_text : String
  display_text : String
  home_address : Option String := none
  email_address : Option String := none
  phone_number : Option String := none
  birth_date : Option String := none
  birth_date_text : Option String := none
  updated_date : Option String := none
  updated_date_text : Option String := none
  order_number : Option Nat := none
  first_name : Option String := none
  last_name : Option String := none
  json_file : Option String := none
  scrape_date : Option String := none
deriving DecidableEq

/-- Environment of the search scraper: the HTTP fetcher and the external
`dateparser.search.search_dates` oracle.  `search_dates` returns the list of
(matched text, date) pairs it found, or `None` when it found no date — that
`None` (not an empty list) is its documented no-match result.  Dates are
carried already rendered through `strftime(date_format)`.  `now` stands for
`datetime.datetime.now()` at write time. -/
structure SEnv where
  fetch : String → SResponse
  searchDates : String → Option (List (String × String))
  now : String

def SEARCH_URL : String := "https://publicdatadigger.com/search"

def MAX_RESULTS_ON_SEARCH_PAGE : Nat := 10000

def SCRAPING_SEARCH_DIR : String := "/data/project/voter_registration_scraping/output/search"

def SCRAPING_DETAILS_DIR : String := "/data/project/voter_registration_scraping/output/details"

/-- `complete_url_with_names`: the search URL with query
`q=FNAME+LNAME`, both names stripped and upper-cased. -/
def complete_url_with_names (fname lname : String) : String :=
  SEARCH_URL ++ "?q=" ++ Py.upper (Py.strip fname) ++ "+" ++ Py.upper (Py.strip lname)

/-- The `for rsb in result_body.children` scan of `datadigger_by_name`
(lines 192-204): for each named child whose text contains `born`
(else `updated`) case-insensitively, call `search_dates` and, guarded by
`len(srd) > 0`, store the first match.  When `search_dates` returns `None`,
`len(srd)` raises `TypeError`. -/
def born_updated_scan (sd : String → Option (List (String × String))) :
    List String → Rec → Except PyErr Rec
  | [], res => .ok res
  | txt :: rest, res =>
    if Py.inStr "born" (Py.lower txt) then
      match sd txt with
      | none => .error .typeError
      | some [] => born_updated_scan sd rest res
      | some ((t, d) :: _) =>
          born_updated_scan sd rest { res with birth_date := some d, birth_date_text := some t }
    else if Py.inStr "updated" (Py.lower txt) then
      match sd txt with
      | none => .error .typeError
      | some [] => born_updated_scan sd rest res
      | some ((t, d) :: _) =>
          born_updated_scan sd rest { res with updated_date := some d, updated_date_text := some t }
    else born_updated_scan sd rest res

/-- Build the Record for one result block: the unconditional keys, the three
icon-marked optional keys, then the born/updated date scan. -/
def result_record (sd : String → Option (List (String × String)))
    (b : ResultBlock) : Except PyErr Rec :=
  born_updated_scan sd b.childTexts
    { detail_url := b.detailUrl
      detail_url_text := b.detailUrlText
      display_text := b.displayText
      home_address := b.homeAddress
      email_address := b.emailAddress
      phone_number := b.phoneNumber }

/-- The `for j, result_body in enumerate(...)` loop of `datadigger_by_name`
(lines 171-206): break with a logged error (the returned flag) once the
0-based index `j` exceeds `MAX_RESULTS_ON_SEARCH_PAGE`; otherwise append the
block's record.  An exception inside an iteration propagates. -/
def search_results_loop (sd : String → Option (List (String × String))) :
    Nat → List ResultBlock → Except PyErr (List Rec × Bool)
  | _, [] => .ok ([], false)
  | j, b :: rest =>
    if MAX_RESULTS_ON_SEARCH_PAGE < j then .ok ([], true)
    else
      match result_record sd b with
      | .error e => .error e
      | .ok res =>
        match search_results_loop sd (j + 1) rest with
        | .error e => .error e
        | .ok (more, flag) => .ok (res :: more, flag)

/-- `datadigger_by_name`: fetch the search page for the two names; when the
status is 200 parse the result blocks, otherwise keep `results = []`; in both
cases return `page.text` alongside the results. -/
def datadigger_by_name (env : SEnv) (fname lname : String) :
    Except PyErr (String × List Rec) :=
  let page := env.fetch (complete_url_with_names fname lname)
  if page.status = 200 then
    match search_results_loop env.searchDates 0 page.blocks with
    | .error e => .error e
    | .ok (results, _) => .ok (page.text, results)
  else .ok (page.text, [])

/-!  The detail-page side. -/

/-- A `profile-header` or `page-container-header` section of the detail page,
as pre-traversed by the (out-of-scope) BeautifulSoup selectors: the section's
header text and the ordered (label text, value text) pairs obtained from its
`profile-info-label` elements and their following `profile-info-value`
elements (line breaks already normalised by `text_with_nl`). -/
structure Section where
  text : String
  labels : List (String × String)
deriving DecidableEq

/-- A detail-page HTTP response. -/
structure DResponse where
  status : Nat
  text : String
  profileHeaders : List Section
  containerHeaders : List Section
deriving DecidableEq

/-- One voter-registration sub-record of `datadigger_detail_page`. -/
structure VReg where
  voter_registration_date : String
  voter_registration_date_text : String
  voter_registration_attributes : List (String × String)
deriving DecidableEq

/-- The `attributes` structure of `datadigger_detail_page` when the status
was 200 (the dict is then always non-empty: it has the `profile` and
`voter_registrations` keys). -/
structure DAttrs where
  profile : List (String × String)
  voter_registrations : List VReg
deriving DecidableEq

/-- Environment of the detail scraper: fetcher, `search_dates` and
`dateparser.parse` oracles (`parse` returns `None` on failure; dates arrive
already rendered through `strftime(date_format)`), and the write timestamp. -/
structure DEnv where
  fetch : String → DResponse
  searchDates : String → Option (List (String × String))
  parseDates : String → Option String
  now : String

/-- `clean_label`: strip, drop colons, replace non-word characters and then
single underscores or plus signs by underscores, lower-case. -/
def clean_label (label : String) : String :=
  Py.lower (Py.subUnderscorePlus (Py.subNonWord (Py.removeColon (Py.strip label))))

/-- The per-key value rewrite of the profile section: a parseable `born`
value is reformatted, everything else is kept. -/
def profile_value (denv : DEnv) (key value : String) : String :=
  if key == "born" then
    match denv.parseDates value with
    | some d => d
    | none => value
  else value

/-- The per-key value rewrite of a voter-registration body: parseable
`birthdate` and `registration` values are reformatted. -/
def vr_value (denv : DEnv) (key value : String) : String :=
  if key == "birthdate" || key == "registration" then
    match denv.parseDates value with
    | some d => d
    | none => value
  else value

/-- Parse one `Voter Registration` section: `search_dates(header)[0]` raises
`TypeError` when `search_dates` returns `None` (and `IndexError` on an empty
list, kept for totality although `dateparser` never returns one); then build
the label/value mapping of the following body. -/
def vr_section (denv : DEnv) (sec : Section) : Except PyErr VReg :=
  match denv.searchDates sec.text with
  | none => .error .typeError
  | some [] => .error .indexError
  | some ((t, d) :: _) =>
      .ok { voter_registration_date := d
            voter_registration_date_text := t
            voter_registration_attributes :=
              sec.labels.map (fun p => (clean_label p.1, vr_value denv (clean_label p.1) p.2)) }

/-- Parse every matching voter-registration section in order, propagating
the first exception. -/
def vr_sections (denv : DEnv) : List Section → Except PyErr (List VReg)
  | [] => .ok []
  | s :: rest =>
    match vr_section denv s with
    | .error e => .error e
    | .ok v =>
      match vr_sections denv rest with
      | .error e => .error e
      | .ok vs => .ok (v :: vs)

/-- `datadigger_detail_page`: fetch the detail URL; on status 200, take the
first `profile-header` section containing `Additional Information`
(`[0]` raises `IndexError` when there is none), build the profile mapping,
then parse every `Voter Registration` container section.  On any other
status the attributes dict stays empty (`none`).  `page.text` is returned in
all non-raising cases. -/
def datadigger_detail_page (denv : DEnv) (detail_url : String) :
    Except PyErr (String × Option DAttrs) :=
  let page := denv.fetch detail_url
  if page.status = 200 then
    match page.profileHeaders.filter (fun s => Py.inStr "Additional Information" s.text) with
    | [] => .error .indexError
    | ph :: _ =>
      let profile :=
        ph.labels.map (fun p => (clean_label p.1, profile_value denv (clean_label p.1) p.2))
      match vr_sections denv
          (page.containerHeaders.filter (fun s => Py.inStr "Voter Registration" s.text)) with
      | .error e => .error e
      | .ok vrs => .ok (page.text, some { profile := profile, voter_registrations := vrs })
  else .ok (page.text, none)

/-!  The checkpoint store and the two task runners. -/

/-- The JSON artifact written by `scrape_details`: the parsed attributes plus
the provenance keys merged in before `json.dumps`. -/
structure DAug where
  attrs : DAttrs
  detail_url : String
  json_file : String
  scrape_date : String
deriving DecidableEq

/-- Contents of one on-disk artifact. -/
inductive FileData where
  | html (text : String)
  | json (records : List Rec)
  | djson (record : DAug)
deriving DecidableEq

/-- The filesystem-backed checkpoint store: an association list from absolute
path to file contents; a write shadows any earlier entry for the same path
(Python `open(..., "w")` overwrites).  Directories are implicit: `os.makedirs`
only prepares writes and never creates artifacts. -/
abbrev Store : Type := List (String × FileData)

/-- `os.path.isfile` on the store. -/
def Store.isFile (s : Store) (p : String) : Bool := (s.lookup p).isSome

/-- Write (create or overwrite) a file. -/
def Store.writeFile (s : Store) (p : String) (c : FileData) : Store := (p, c) :: s

/-- The filesystem key of one name: `re.sub(r'[\W]', '_', name.lower().strip())`. -/
def output_key (name : String) : String := Py.subNonWord (Py.strip (Py.lower name))

/-- Path of the JSON artifact of a name task. -/
def search_json_name (fname lname : String) : String :=
  SCRAPING_SEARCH_DIR ++ "/json/" ++ output_key lname ++ "/" ++ output_key fname ++ ".json"

/-- Path of the raw-HTML artifact of a name task. -/
def search_html_name (fname lname : String) : String :=
  SCRAPING_SEARCH_DIR ++ "/html/" ++ output_key lname ++ "/" ++ output_key fname ++ ".html"

/-- The per-record augmentation of the JSON write loop in `scrape_by_name`
(lines 256-261): ordinal index, the task's names, the artifact path, the
scrape timestamp. -/
def augment_results (fname lname output_name now : String) (results : List Rec) : List Rec :=
  results.enum.map (fun p =>
    { p.2 with
      order_number := some p.1
      first_name := some fname
      last_name := some lname
      json_file := some output_name
      scrape_date := some now })

/-- `scrape_by_name`: compute the artifact paths; if the raw-HTML artifact
exists, skip (no fetch — the returned Bool says whether a fetch happened).
Otherwise fetch and parse, write the raw HTML unconditionally, and write the
JSON artifact only when at least one record was parsed.  The rate-limiter
sleep has no effect on the store and is omitted. -/
def scrape_by_name (env : SEnv) (store : Store) (fname lname : String) :
    Except PyErr (Store × Bool) :=
  let output_name := search_json_name fname lname
  let html_name := search_html_name fname lname
  if Store.isFile store html_name then .ok (store, false)
  else
    match datadigger_by_name env fname lname with
    | .error e => .error e
    | .ok (html, results) =>
      let store1 := Store.writeFile store html_name (.html html)
      if 0 < results.length then
        .ok (Store.writeFile store1 output_name
              (.json (augment_results fname lname output_name env.now results)), true)
      else .ok (store1, true)

/-- The store after `scrape_by_name` as the batch driver sees it: a raised
exception is caught in `main_search`, leaving the store as it was (no write
precedes the parse). -/
def runStateByName (env : SEnv) (store : Store) (fname lname : String) : Store :=
  match scrape_by_name env store fname lname with
  | .ok (s, _) => s
  | .error _ => store

/-- Path component extraction of `urllib.parse.urlparse(url).path` for the
well-formed `scheme://host/path` URLs the scraper handles: drop the query,
drop scheme and host. -/
def url_path (url : String) : String :=
  let noq : List Char := url.data.takeWhile (fun c => c != '?')
  match Py.dropThrough "://".data noq with
  | some rest =>
    match Py.splitOnChar '/' [] rest with
    | [] => ""
    | _ :: segs =>
      if segs.isEmpty then "" else ⟨'/' :: List.intercalate ['/'] segs⟩
  | none => ⟨noq⟩

/-- The filesystem key of a URL task (`scrape_details` lines 367-368):
`path_parts[1:3]` joined by `/`, then `path_parts[3:]` joined by `_`. -/
def details_pname (detail_url : String) : String :=
  let path_parts := Py.splitOnChar '/' [] (url_path detail_url).data
  ⟨List.intercalate ['/'] ((path_parts.drop 1).take 2)
    ++ '/' :: List.intercalate ['_'] (path_parts.drop 3)⟩

/-- Path of the JSON artifact of a URL task. -/
def details_json_name (detail_url : String) : String :=
  SCRAPING_DETAILS_DIR ++ "/json/" ++ details_pname detail_url ++ ".json"

/-- Path of the raw-HTML artifact of a URL task. -/
def details_html_name (detail_url : String) : String :=
  SCRAPING_DETAILS_DIR ++ "/html/" ++ details_pname detail_url ++ ".html"

/-- `scrape_details`: skip when the raw-HTML artifact exists; otherwise fetch
and parse, write the raw HTML unconditionally, and write the JSON artifact
only when the attributes dict is truthy (non-empty, i.e. the status was
200). -/
def scrape_details (denv : DEnv) (store : Store) (detail_url : String) :
    Except PyErr (Store × Bool) :=
  let output_name := details_json_name detail_url
  let html_name := details_html_name detail_url
  if Store.isFile store html_name then .ok (store, false)
  else
    match datadigger_detail_page denv detail_url with
    | .error e => .error e
    | .ok (html, results) =>
      let store1 := Store.writeFile store html_name (.html html)
      match results with
      | some attrs =>
        .ok (Store.writeFile store1 output_name
              (.djson { attrs := attrs, detail_url := detail_url,
                        json_file := output_name, scrape_date := denv.now }), true)
      | none => .ok (store1, true)

/-- The store after `scrape_details` as the batch driver sees it. -/
def runStateDetails (denv : DEnv) (store : Store) (detail_url : String) : Store :=
  match scrape_details denv store detail_url with
  | .ok (s, _) => s
  | .error _ => store

/-!  The batch drivers and the kill switch. -/

/-- The part of the filesystem the kill switch looks at: whether the sentinel
file `TERMINATE.NOW` exists in the working directory. -/
structure FsEnv where
  terminateNowExists : Bool
deriving DecidableEq

/-- `check_for_termination` (lines 442-448): when `TERMINATE.NOW` exists,
log a critical entry and call `exit()`.  The result records whether the
process terminates. -/
def check_for_termination (fs : FsEnv) : Bool := fs.terminateNowExists

/-- One input row of `main_search` after
`read_csv(...).dropna(subset=['f_name', 'l_name'])`. -/
structure Row where
  f_name : String
  l_name : String
deriving DecidableEq

/-- The `for j, row in names_df.iterrows()` loop of `main_search`
(lines 478-492).  `flags k` is the value of `terminate.terminate_now`
observed at the `k`-th loop-boundary check (set asynchronously by
SIGINT/SIGTERM through `GracefulTerminate`).  The loop breaks when the flag
is observed true, strips both names, scrapes when both are non-empty (a
raised exception is logged and the iteration continues), and logs a warning
otherwise.  `fs` is threaded to record that the loop body never consults the
`TERMINATE.NOW` sentinel: `check_for_termination` is defined but not called.
The second component lists the rows that reached the loop body. -/
def main_search_loop (fs : FsEnv) (env : SEnv) (flags : Nat → Bool) :
    Nat → Store → List Row → Store × List Row
  | _, store, [] => (store, [])
  | j, store, row :: rest =>
    if flags j then (store, [])
    else
      let l_name := Py.strip row.l_name
      let f_name := Py.strip row.f_name
      let store1 :=
        if 0 < l_name.length ∧ 0 < f_name.length
        then runStateByName env store f_name l_name
        else store
      let next := main_search_loop fs env flags (j + 1) store1 rest
      (next.1, row :: next.2)

/-- `main_search`: run the batch loop over the input rows from iteration 0. -/
def main_search (fs : FsEnv) (env : SEnv) (flags : Nat → Bool)
    (store : Store) (rows : List Row) : Store × List Row :=
  main_search_loop fs env flags 0 store rows

/-- The `for j, detail_url in enumerate(details_list)` loop of `main_details`
(lines 508-520), with the same cooperative-termination check at each
boundary; the URL list was already filtered to non-empty lines, and the body
re-checks `len(detail_url) > 0`. -/
def main_details_loop (denv : DEnv) (flags : Nat → Bool) :
    Nat → Store → List String → Store × List String
  | _, store, [] => (store, [])
  | j, store, detail_url :: rest =>
    if flags j then (store, [])
    else
      let store1 :=
        if 0 < detail_url.length then runStateDetails denv store detail_url else store
      let next := main_details_loop denv flags (j + 1) store1 rest
      (next.1, detail_url :: next.2)

/-- `main_details`: run the batch loop over the URL list from iteration 0. -/
def main_details (denv : DEnv) (flags : Nat → Bool)
    (store : Store) (urls : List String) : Store × List String :=
  main_details_loop denv flags 0 store urls

/-!  The aggregator. -/

/-- The aggregated table of `load_search_results`: the flattened rows and the
`number_of_files` metadatum (`number_of_records` is the row count). -/
structure SearchTable where
  rows : List Rec
  number_of_files : Nat
deriving DecidableEq

/-- The inner `for first in os.listdir(...)` loop of `load_search_results`:
for each directory entry whose name ends in `.json`, count the file and
append its parsed lines (one JSON record per line, `json.loads` being the
inverse of the `json.dumps`-per-line writes). -/
def load_search_inner (acc : List Rec × Nat) :
    List (String × List Rec) → List Rec × Nat
  | [] => acc
  | (fname, lines) :: rest =>
    if Py.endsWith fname ".json"
    then load_search_inner (acc.1 ++ lines, acc.2 + 1) rest
    else load_search_inner acc rest

/-- The outer `for last in os.listdir(...)` loop of `load_search_results`
over the two-level `search/json/<last>/<first>.json` tree. -/
def load_search_outer (acc : List Rec × Nat) :
    List (String × List (String × List Rec)) → List Rec × Nat
  | [] => acc
  | (_, files) :: rest => load_search_outer (load_search_inner acc files) rest

/-- `load_search_results` (lines 409-432) on a directory-listing view of the
store: the tree is the list of last-name directories, each with its list of
(file name, parsed JSON lines) entries. -/
def load_search_results (tree : List (String × List (String × List Rec))) : SearchTable :=
  let acc := load_search_outer ([], 0) tree
  { rows := acc.1, number_of_files := acc.2 }

end PDD

namespace KS

/-- One Kickstarter project card, as located by the (out-of-scope)
BeautifulSoup `js-react-proj-card` selector; `pid` is its `data-pid` and
`categorySlug` the `category.slug` of its `data-project` JSON. -/
structure KProject where
  pid : String
  categorySlug : String
deriving DecidableEq

/-- Environment of the Kickstarter scraper: for each discover base URL,
the successive pages the generator `get_pages_yield_soup` yields while the
status stays 200, each page given as its list of project cards. -/
structure KEnv where
  pages : String → List (List KProject)

/-- The `cat_dict` category table. -/
def cat_dict : List (String × Int) :=
  [("art", 1), ("comics", 3), ("crafts", 26), ("dance", 6), ("design", 7),
   ("fashion", 9), ("film_video", 11), ("food", 10), ("games", 12),
   ("journalism", 13), ("music", 14), ("photography", 15), ("publishing", 18),
   ("technology", 16), ("theater", 17)]

/-- The discover base URL for one project-state query string and category. -/
def mkBaseUrl (state_arg : String) (category_id : Int) : String :=
  "https://www.kickstarter.com/discover/advanced?" ++ state_arg
    ++ "category_id=" ++ toString category_id ++ "&sort=newest&seed=2731239"

/-- The project-state selection of `scraping` (lines 101-104).  It reads the
module-level global `any_state` set in `__main__`, not the `anyState`
parameter. -/
def stloop_of (any_state : Bool) : List (String × String) :=
  if any_state then [("any", "")]
  else [("live", "state=live&"), ("upcoming", "state=upcoming&")]

/-- Loop state of `scraping`: the `project_counter` and the project files
written so far (each project is written to its own `data.json`, in loop
order). -/
structure KState where
  counter : Nat
  writes : List KProject
deriving DecidableEq

/-- The innermost `for k, p in enumerate(projects)` loop (lines 119-139):
increment the counter and write the project file, then return early when
`limit > 0 and project_counter > limit`.  The Bool reports the early
return. -/
def kproj_loop (limit : Nat) (st : KState) : List KProject → KState × Bool
  | [] => (st, false)
  | p :: rest =>
    let st1 : KState := ⟨st.counter + 1, st.writes ++ [p]⟩
    if 0 < limit ∧ limit < st1.counter then (st1, true)
    else kproj_loop limit st1 rest

/-- The `for soup in get_pages_yield_soup(base_url)` loop, with the early
return propagated. -/
def kpage_loop (limit : Nat) (st : KState) : List (List KProject) → KState × Bool
  | [] => (st, false)
  | pg :: rest =>
    match kproj_loop limit st pg with
    | (st1, true) => (st1, true)
    | (st1, false) => kpage_loop limit st1 rest

/-- The `for state, state_arg in stloop` loop. -/
def kstate_loop (env : KEnv) (limit : Nat) (category_id : Int) (st : KState) :
    List (String × String) → KState × Bool
  | [] => (st, false)
  | e :: rest =>
    match kpage_loop limit st (env.pages (mkBaseUrl e.2 category_id)) with
    | (st1, true) => (st1, true)
    | (st1, false) => kstate_loop env limit category_id st1 rest

/-- The `for sect in sections` loop: unknown categories are skipped with an
info message. -/
def ksect_loop (env : KEnv) (limit : Nat) (stloop : List (String × String))
    (st : KState) : List String → KState × Bool
  | [] => (st, false)
  | sect :: rest =>
    let category_id := (List.lookup sect cat_dict).getD (-1)
    if category_id < 0 then ksect_loop env limit stloop st rest
    else
      match kstate_loop env limit category_id st stloop with
      | (st1, true) => (st1, true)
      | (st1, false) => ksect_loop env limit stloop st1 rest

/-- `scraping(sections, anyState, limit)` (lines 79-141).  `any_state` is the
module-level global read by the body; the `anyState` parameter is accepted
but never read — the faithful embedding therefore does not use it.  Returns
the final `project_counter` and the project files written. -/
def scraping (env : KEnv) (any_state : Bool) (sections : Option (List String))
    (anyState : Bool) (limit : Nat) : Nat × List KProject :=
  let sects := sections.getD (cat_dict.map Prod.fst)
  let stloop := stloop_of any_state
  let r := ksect_loop env limit stloop ⟨0, []⟩ sects
  (r.1.counter, r.1.writes)

/-- The projects an unlimited run visits, section by section and state by
state, in loop order — the flattening of the loop nest. -/
def state_projects (env : KEnv) (category_id : Int) :
    List (String × String) → List KProject
  | [] => []
  | e :: rest =>
    (env.pages (mkBaseUrl e.2 category_id)).flatten ++ state_projects env category_id rest

/-- The flattening of the section loop: unknown categories contribute
nothing. -/
def sect_projects (env : KEnv) (stloop : List (String × String)) :
    List String → List KProject
  | [] => []
  | sect :: rest =>
    let category_id := (List.lookup sect cat_dict).getD (-1)
    if category_id < 0 then sect_projects env stloop rest
    else state_projects env category_id stloop ++ sect_projects env stloop rest

/-- All projects available to a run of `scraping` with the given global
state and sections. -/
def kickstarter_available (env : KEnv) (any_state : Bool)
    (sections : Option (List String)) : List KProject :=
  sect_projects env (stloop_of any_state) (sections.getD (cat_dict.map Prod.fst))

end KS

/-!  Basic store lemmas. -/

namespace PDD

theorem Store.isFile_writeFile (s : Store) (p q : String) (c : FileData) :
    Store.isFile (Store.writeFile s p c) q = (q == p || Store.isFile s q) := by
  cases h : q == p with
  | true => simp [Store.isFile, Store.writeFile, List.lookup, h]
  | false => simp [Store.isFile, Store.writeFile, List.lookup, h]

/-- Two strings with unequal suffixes of equal length stay unequal under any
left extension. -/
theorem append_ne_of_suffix_ne (a b s t : String)
    (hl : s.data.length = t.data.length) (hne : s.data ≠ t.data) :
    a ++ s ≠ b ++ t := by
  intro h
  have hd : a.data ++ s.data = b.data ++ t.data := congrArg String.data h
  have hlen : a.data.length = b.data.length := by
    have h2 := congrArg List.length hd
    simp only [List.length_append] at h2
    omega
  exact hne (List.append_inj_right hd hlen)

/-- The two artifact paths of one name task are distinct. -/
theorem search_names_ne (fname lname : String) :
    search_html_name fname lname ≠ search_json_name fname lname := by
  unfold search_html_name search_json_name
  exact append_ne_of_suffix_ne _ _ ".html" ".json" (by decide) (by decide)

/-- The two artifact paths of one URL task are distinct. -/
theorem details_names_ne (detail_url : String) :
    details_html_name detail_url ≠ details_json_name detail_url := by
  unfold details_html_name details_json_name
  exact append_ne_of_suffix_ne _ _ ".html" ".json" (by decide) (by decide)

/-!  Unfolding lemmas for the two task runners. -/

theorem scrape_by_name_skip (env : SEnv) (store : Store) (fname lname : String)
    (h : Store.isFile store (search_html_name fname lname) = true) :
    scrape_by_name env store fname lname = .ok (store, false) := by
  simp [scrape_by_name, h]

theorem scrape_by_name_error (env : SEnv) (store : Store) (fname lname : String) (e : PyErr)
    (h : Store.isFile store (search_html_name fname lname) = false)
    (hd : datadigger_by_name env fname lname = .error e) :
    scrape_by_name env store fname lname = .error e := by
  simp [scrape_by_name, h, hd]

theorem scrape_by_name_fetch (env : SEnv) (store : Store) (fname lname text : String)
    (recs : List Rec)
    (h : Store.isFile store (search_html_name fname lname) = false)
    (hd : datadigger_by_name env fname lname = .ok (text, recs)) :
    scrape_by_name env store fname lname = .ok
      ((if 0 < recs.length then
          Store.writeFile
            (Store.writeFile store (search_html_name fname lname) (.html text))
            (search_json_name fname lname)
            (.json (augment_results fname lname (search_json_name fname lname) env.now recs))
        else Store.writeFile store (search_html_name fname lname) (.html text)), true) := by
  simp only [scrape_by_name, h, Bool.false_eq_true, if_false, hd]
  split <;> rfl

theorem scrape_details_skip (denv : DEnv) (store : Store) (detail_url : String)
    (h : Store.isFile store (details_html_name detail_url) = true) :
    scrape_details denv store detail_url = .ok (store, false) := by
  simp [scrape_details, h]

theorem scrape_details_error (denv : DEnv) (store : Store) (detail_url : String) (e : PyErr)
    (h : Store.isFile store (details_html_name detail_url) = false)
    (hd : datadigger_detail_page denv detail_url = .error e) :
    scrape_details denv store detail_url = .error e := by
  simp [scrape_details, h, hd]

theorem scrape_details_fetch (denv : DEnv) (store : Store) (detail_url text : String)
    (results : Option DAttrs)
    (h : Store.isFile store (details_html_name detail_url) = false)
    (hd : datadigger_detail_page denv detail_url = .ok (text, results)) :
    scrape_details denv store detail_url = .ok
      ((match results with
        | some attrs =>
          Store.writeFile
            (Store.writeFile store (details_html_name detail_url) (.html text))
            (details_json_name detail_url)
            (.djson { attrs := attrs, detail_url := detail_url,
                      json_file := details_json_name detail_url, scrape_date := denv.now })
        | none => Store.writeFile store (details_html_name detail_url) (.html text)), true) := by
  simp only [scrape_details, h, Bool.false_eq_true, if_false, hd]
  cases results <;> rfl

theorem runStateByName_of_ok (env : SEnv) (store : Store) (fname lname : String)
    (s : Store) (b : Bool) (h : scrape_by_name env store fname lname = .ok (s, b)) :
    runStateByName env store fname lname = s := by
  simp [runStateByName, h]

theorem runStateByName_of_error (env : SEnv) (store : Store) (fname lname : String)
    (e : PyErr) (h : scrape_by_name env store fname lname = .error e) :
    runStateByName env store fname lname = store := by
  simp [runStateByName, h]

theorem runStateDetails_of_ok (denv : DEnv) (store : Store) (detail_url : String)
    (s : Store) (b : Bool) (h : scrape_details denv store detail_url = .ok (s, b)) :
    runStateDetails denv store detail_url = s := by
  simp [runStateDetails, h]

theorem runStateDetails_of_error (denv : DEnv) (store : Store) (detail_url : String)
    (e : PyErr) (h : scrape_details denv store detail_url = .error e) :
    runStateDetails denv store detail_url = store := by
  simp [runStateDetails, h]

/-- After a completed (non-skipped, non-raising) `scrape_by_name`, the
raw-HTML artifact exists. -/
theorem isFile_html_after_by_name (env : SEnv) (store : Store) (fname lname text : String)
    (recs : List Rec)
    (h : Store.isFile store (search_html_name fname lname) = false)
    (hd : datadigger_by_name env fname lname = .ok (text, recs)) :
    Store.isFile (runStateByName env store fname lname) (search_html_name fname lname)
      = true := by
  rw [runStateByName_of_ok env store fname lname _ _ (scrape_by_name_fetch env store fname lname text recs h hd)]
  split <;> simp [Store.isFile_writeFile]

/-- After a completed (non-skipped, non-raising) `scrape_details`, the
raw-HTML artifact exists. -/
theorem isFile_html_after_details (denv : DEnv) (store : Store) (detail_url text : String)
    (results : Option DAttrs)
    (h : Store.isFile store (details_html_name detail_url) = false)
    (hd : datadigger_detail_page denv detail_url = .ok (text, results)) :
    Store.isFile (runStateDetails denv store detail_url) (details_html_name detail_url)
      = true := by
  rw [runStateDetails_of_ok denv store detail_url _ _ (scrape_details_fetch denv store detail_url text results h hd)]
  cases results <;> simp [Store.isFile_writeFile]

/-- Running `scrape_by_name` once more on its own result store changes
nothing. -/
theorem runStateByName_idem (env : SEnv) (store : Store) (fname lname : String) :
    runStateByName env (runStateByName env store fname lname) fname lname
      = runStateByName env store fname lname := by
  by_cases h : Store.isFile store (search_html_name fname lname) = true
  · have r1 := runStateByName_of_ok env store fname lname store false
      (scrape_by_name_skip env store fname lname h)
    rw [r1, r1]
  · have hf : Store.isFile store (search_html_name fname lname) = false :=
      Bool.not_eq_true _ ▸ eq_false_of_ne_true h
    cases hd : datadigger_by_name env fname lname with
    | error e =>
      have r1 := runStateByName_of_error env store fname lname e
        (scrape_by_name_error env store fname lname e hf hd)
      rw [r1, r1]
    | ok pr =>
      obtain ⟨text, recs⟩ := pr
      have h2 := isFile_html_after_by_name env store fname lname text recs hf hd
      have r2 := runStateByName_of_ok env (runStateByName env store fname lname) fname lname
        (runStateByName env store fname lname) false
        (scrape_by_name_skip env (runStateByName env store fname lname) fname lname h2)
      exact r2

/-- Running `scrape_details` once more on its own result store changes
nothing. -/
theorem runStateDetails_idem (denv : DEnv) (store : Store) (detail_url : String) :
    runStateDetails denv (runStateDetails denv store detail_url) detail_url
      = runStateDetails denv store detail_url := by
  by_cases h : Store.isFile store (details_html_name detail_url) = true
  · have r1 := runStateDetails_of_ok denv store detail_url store false
      (scrape_details_skip denv store detail_url h)
    rw [r1, r1]
  · have hf : Store.isFile store (details_html_name detail_url) = false :=
      Bool.not_eq_true _ ▸ eq_false_of_ne_true h
    cases hd : datadigger_detail_page denv detail_url with
    | error e =>
      have r1 := runStateDetails_of_error denv store detail_url e
        (scrape_details_error denv store detail_url e hf hd)
      rw [r1, r1]
    | ok pr =>
      obtain ⟨text, results⟩ := pr
      have h2 := isFile_html_after_details denv store detail_url text results hf hd
      exact runStateDetails_of_ok denv (runStateDetails denv store detail_url) detail_url
        (runStateDetails denv store detail_url) false
        (scrape_details_skip denv (runStateDetails denv store detail_url) detail_url h2)

/-- C1: idempotence of the task runners.  When the raw-HTML artifact of a
name task or a detail-URL task already exists, the runner returns without
fetching (the Bool is false) and without touching the store; consequently
running a runner twice from any starting store leaves the same artifacts as
running it once. -/
theorem task_runner_idempotent (env : SEnv) (denv : DEnv) (store : Store)
    (fname lname detail_url : String) :
    (Store.isFile store (search_html_name fname lname) = true →
        scrape_by_name env store fname lname = .ok (store, false)) ∧
    runStateByName env (runStateByName env store fname lname) fname lname
      = runStateByName env store fname lname ∧
    (Store.isFile store (details_html_name detail_url) = true →
        scrape_details denv store detail_url = .ok (store, false)) ∧
    runStateDetails denv (runStateDetails denv store detail_url) detail_url
      = runStateDetails denv store detail_url :=
  ⟨fun h => scrape_by_name_skip env store fname lname h,
   runStateByName_idem env store fname lname,
   fun h => scrape_details_skip denv store detail_url h,
   runStateDetails_idem denv store detail_url⟩

/-!  Concrete fixtures used by witnesses and counterexamples. -/

/-- A search environment whose fetches always return 404. -/
def env404 : SEnv :=
  { fetch := fun _ => { status := 404, text := "Not Found", blocks := [] }
    searchDates := fun _ => none
    now := "2022-07-10T12:00:00" }

/-- A search environment returning an empty 200 results page. -/
def env200 : SEnv :=
  { fetch := fun _ => { status := 200, text := "empty results page", blocks := [] }
    searchDates := fun _ => none
    now := "2022-07-10T12:00:00" }

/-- A detail environment whose fetches always return 404. -/
def denv404 : DEnv :=
  { fetch := fun _ => { status := 404, text := "Not Found",
                        profileHeaders := [], containerHeaders := [] }
    searchDates := fun _ => none
    parseDates := fun _ => none
    now := "2022-07-10T12:00:00" }

def urlW : String := "https://publicdatadigger.com/person/ga/jane-doe"

/-- A store already holding the raw-HTML artifact of the ("Jane", "Doe")
name task. -/
def storeW1 : Store := [(search_html_name "Jane" "Doe", FileData.html "cached")]

/-- A store already holding the raw-HTML artifact of the `urlW` detail
task. -/
def storeW2 : Store := [(details_html_name urlW, FileData.html "cached")]

/-- Witness for C1: on stores that already hold the raw-HTML artifact, both
runners are observably no-ops. -/
theorem task_runner_idempotent_w :
    scrape_by_name env404 storeW1 "Jane" "Doe" = .ok (storeW1, false) ∧
    scrape_details denv404 storeW2 urlW = .ok (storeW2, false) :=
  ⟨(task_runner_idempotent env404 denv404 storeW1 "Jane" "Doe" urlW).1 (by decide),
   (task_runner_idempotent env404 denv404 storeW2 "Jane" "Doe" urlW).2.2.1 (by decide)⟩

/-- A non-200 fetch still returns `page.text` with an empty result list. -/
theorem datadigger_by_name_non200 (env : SEnv) (fname lname : String)
    (h : (env.fetch (complete_url_with_names fname lname)).status ≠ 200) :
    datadigger_by_name env fname lname
      = .ok ((env.fetch (complete_url_with_names fname lname)).text, []) := by
  simp [datadigger_by_name, h]

/-- C2, counterexample: the claim says a non-200 response leaves no raw-HTML
artifact, but a 404 search run from the empty store does write the raw-HTML
artifact (containing the 404 body). -/
theorem non200_writes_html_cx :
    (env404.fetch (complete_url_with_names "Jane" "Doe")).status = 404 ∧
    Store.isFile (runStateByName env404 [] "Jane" "Doe")
      (search_html_name "Jane" "Doe") = true := by
  constructor
  · rfl
  · decide

/-- C2, amended: a non-200 response yields no parsed records and no JSON
artifact, but the raw response text is still written to the raw-HTML
artifact — the raw write is unconditional once the fetch returns, not gated
on status 200. -/
theorem non200_keeps_raw_html (env : SEnv) (store : Store) (fname lname : String)
    (h : (env.fetch (complete_url_with_names fname lname)).status ≠ 200)
    (hf : Store.isFile store (search_html_name fname lname) = false) :
    scrape_by_name env store fname lname
      = .ok (Store.writeFile store (search_html_name fname lname)
              (.html (env.fetch (complete_url_with_names fname lname)).text), true) := by
  have hd := datadigger_by_name_non200 env fname lname h
  have h2 := scrape_by_name_fetch env store fname lname
    (env.fetch (complete_url_with_names fname lname)).text [] hf hd
  simpa using h2

/-- Witness for C2 as amended, at a concrete 404 run from the empty store. -/
theorem non200_keeps_raw_html_w :
    scrape_by_name env404 [] "Jane" "Doe"
      = .ok (Store.writeFile [] (search_html_name "Jane" "Doe")
              (.html "Not Found"), true) :=
  non200_keeps_raw_html env404 [] "Jane" "Doe" (by decide) (by decide)

/-- C3, counterexample: a 200 search page with zero result blocks leaves the
raw-HTML artifact on disk with no sibling JSON artifact, so the two files of
the claimed artifact pair do not exist together. -/
theorem artifact_pair_broken_cx :
    Store.isFile (runStateByName env200 [] "Jane" "Doe")
      (search_html_name "Jane" "Doe") = true ∧
    Store.isFile (runStateByName env200 [] "Jane" "Doe")
      (search_json_name "Jane" "Doe") = false := by
  decide

/-- C3, amended: after a run that writes the raw-HTML artifact, the sibling
JSON artifact exists only conditionally — for a name task exactly when at
least one record was parsed (or the JSON file already existed), and for a
URL task exactly when the parsed attributes dict is non-empty, i.e. the
fetch returned 200; the raw-HTML artifact itself always exists after such a
run. -/
theorem artifact_pair_conditional (env : SEnv) (denv : DEnv) (store : Store)
    (fname lname detail_url text dtext : String) (recs : List Rec)
    (dres : Option DAttrs) (st1 st2 : Store) (b1 b2 : Bool) :
    (Store.isFile store (search_html_name fname lname) = false →
     datadigger_by_name env fname lname = .ok (text, recs) →
     scrape_by_name env store fname lname = .ok (st1, b1) →
     Store.isFile st1 (search_html_name fname lname) = true ∧
     Store.isFile st1 (search_json_name fname lname)
       = (Store.isFile store (search_json_name fname lname)
           || decide (0 < recs.length))) ∧
    (Store.isFile store (details_html_name detail_url) = false →
     datadigger_detail_page denv detail_url = .ok (dtext, dres) →
     scrape_details denv store detail_url = .ok (st2, b2) →
     Store.isFile st2 (details_html_name detail_url) = true ∧
     Store.isFile st2 (details_json_name detail_url)
       = (Store.isFile store (details_json_name detail_url) || dres.isSome)) := by
  constructor
  · intro hf hd hs
    have h2 := scrape_by_name_fetch env store fname lname text recs hf hd
    rw [hs] at h2
    injection h2 with h3
    have hst : st1 = (if 0 < recs.length then
        Store.writeFile
          (Store.writeFile store (search_html_name fname lname) (.html text))
          (search_json_name fname lname)
          (.json (augment_results fname lname (search_json_name fname lname) env.now recs))
      else Store.writeFile store (search_html_name fname lname) (.html text)) :=
      congrArg Prod.fst h3
    have hne : (search_json_name fname lname == search_html_name fname lname) = false := by
      rw [beq_eq_false_iff_ne]
      exact fun hh => search_names_ne fname lname hh.symm
    by_cases hr : 0 < recs.length
    · subst hst
      simp [hr, Store.isFile_writeFile]
    · subst hst
      simp [hr, Store.isFile_writeFile, hne]
  · intro hf hd hs
    have hne : (details_json_name detail_url == details_html_name detail_url) = false := by
      rw [beq_eq_false_iff_ne]
      exact fun hh => details_names_ne detail_url hh.symm
    cases dres with
    | some attrs =>
      have h2 := scrape_details_fetch denv store detail_url dtext (some attrs) hf hd
      rw [hs] at h2
      injection h2 with h3
      have hst : st2 =
          Store.writeFile
            (Store.writeFile store (details_html_name detail_url) (.html dtext))
            (details_json_name detail_url)
            (.djson { attrs := attrs, detail_url := detail_url,
                      json_file := details_json_name detail_url, scrape_date := denv.now }) :=
        congrArg Prod.fst h3
      subst hst
      simp [Store.isFile_writeFile]
    | none =>
      have h2 := scrape_details_fetch denv store detail_url dtext none hf hd
      rw [hs] at h2
      injection h2 with h3
      have hst : st2 = Store.writeFile store (details_html_name detail_url) (.html dtext) :=
        congrArg Prod.fst h3
      subst hst
      simp [Store.isFile_writeFile, hne]

/-!  Claims about the batch drivers. -/

/-- The batch loop skeleton never consults the sentinel environment. -/
theorem main_search_loop_fs_irrel (fs1 fs2 : FsEnv) (env : SEnv) (flags : Nat → Bool) :
    ∀ (rows : List Row) (j : Nat) (store : Store),
      main_search_loop fs1 env flags j store rows
        = main_search_loop fs2 env flags j store rows
  | [], _, _ => rfl
  | row :: rest, j, store => by
    by_cases h : flags j
    · simp [main_search_loop, h]
    · simp [main_search_loop, h, main_search_loop_fs_irrel fs1 fs2 env flags rest (j + 1)]

def flagsOff : Nat → Bool := fun _ => false

def row1 : Row := ⟨"Jane", "Doe"⟩

def row2 : Row := ⟨"John", "Roe"⟩

/-- C4, counterexample: with the sentinel file present throughout
(`terminateNowExists = true`), a two-row name-search batch still processes
both rows — no check runs during the loop and the process does not
terminate, although `check_for_termination` would terminate it if it were
called. -/
theorem kill_switch_unchecked_cx :
    check_for_termination ⟨true⟩ = true ∧
    (main_search ⟨true⟩ env404 flagsOff [] [row1, row2]).2 = [row1, row2] := by
  exact ⟨rfl, by decide⟩

/-- C4, amended: `check_for_termination` terminates the process with a
critical log entry exactly when `TERMINATE.NOW` exists, but it is dead code:
neither batch loop invokes it, so the name-search batch behaves identically
whether or not the sentinel file exists. -/
theorem kill_switch_dead_code (env : SEnv) (flags : Nat → Bool) (store : Store)
    (rows : List Row) (b1 b2 : Bool) :
    check_for_termination ⟨true⟩ = true ∧
    check_for_termination ⟨false⟩ = false ∧
    main_search ⟨b1⟩ env flags store rows = main_search ⟨b2⟩ env flags store rows :=
  ⟨rfl, rfl, main_search_loop_fs_irrel ⟨b1⟩ ⟨b2⟩ env flags rows 0 store⟩

/-- The rows a batch loop starting at iteration `j` lets through before the
termination flag is first observed true. -/
def loopTaken {α : Type} (flags : Nat → Bool) : Nat → List α → List α
  | _, [] => []
  | j, a :: rest => if flags j then [] else a :: loopTaken flags (j + 1) rest

/-- The rows processed by the name-search loop are exactly the flag-cut
input. -/
theorem main_search_loop_processed (fs : FsEnv) (env : SEnv) (flags : Nat → Bool) :
    ∀ (rows : List Row) (j : Nat) (store : Store),
      (main_search_loop fs env flags j store rows).2 = loopTaken flags j rows
  | [], _, _ => rfl
  | row :: rest, j, store => by
    by_cases h : flags j
    · simp [main_search_loop, loopTaken, h]
    · simp [main_search_loop, loopTaken, h,
        main_search_loop_processed fs env flags rest (j + 1)]

/-- The URLs processed by the detail loop are exactly the flag-cut input. -/
theorem main_details_loop_processed (denv : DEnv) (flags : Nat → Bool) :
    ∀ (urls : List String) (j : Nat) (store : Store),
      (main_details_loop denv flags j store urls).2 = loopTaken flags j urls
  | [], _, _ => rfl
  | u :: rest, j, store => by
    by_cases h : flags j
    · simp [main_details_loop, loopTaken, h]
    · simp [main_details_loop, loopTaken, h,
        main_details_loop_processed denv flags rest (j + 1)]

/-- The flag-cut of a list stops no later than any index where the flag is
observed true. -/
theorem loopTaken_length_le {α : Type} (flags : Nat → Bool) :
    ∀ (rows : List α) (j k : Nat), flags (j + k) = true →
      (loopTaken flags j rows).length ≤ k
  | [], _, _, _ => by simp [loopTaken]
  | a :: rest, j, k, h => by
    by_cases hj : flags j
    · simp [loopTaken, hj]
    · cases k with
      | zero =>
        rw [Nat.add_zero] at h
        exact absurd h hj
      | succ k2 =>
        have h2 : flags (j + 1 + k2) = true := by
          have h3 : j + 1 + k2 = j + (k2 + 1) := by omega
          rw [h3]; exact h
        have ih := loopTaken_length_le flags rest (j + 1) k2 h2
        have hjf : flags j = false := by simpa using hj
        simp only [loopTaken, hjf, Bool.false_eq_true, if_false, List.length_cons]
        omega

/-- The flag-cut of a list is an initial segment of it. -/
theorem loopTaken_take {α : Type} (flags : Nat → Bool) :
    ∀ (rows : List α) (j : Nat),
      loopTaken flags j rows = rows.take (loopTaken flags j rows).length
  | [], _ => rfl
  | a :: rest, j => by
    by_cases hj : flags j
    · simp [loopTaken, hj]
    · have hjf : flags j = false := by simpa using hj
      simp only [loopTaken, hjf, Bool.false_eq_true, if_false, List.length_cons,
        List.take_succ_cons, List.cons.injEq, true_and]
      exact loopTaken_take flags rest (j + 1)

/-- C8: termination responsiveness of both batch loops.  If the cooperative
termination flag is observed true at boundary check `j`, then at most `j`
tasks were started, and the tasks that were started form an initial segment
of the input list, each run to completion in input order before the next
boundary check. -/
theorem batch_stops_after_flag (fs : FsEnv) (env : SEnv) (denv : DEnv)
    (flags : Nat → Bool) (store store2 : Store) (rows : List Row)
    (urls : List String) (j : Nat) (h : flags j = true) :
    ((main_search fs env flags store rows).2.length ≤ j ∧
     (main_search fs env flags store rows).2
       = rows.take (main_search fs env flags store rows).2.length) ∧
    ((main_details denv flags store2 urls).2.length ≤ j ∧
     (main_details denv flags store2 urls).2
       = urls.take (main_details denv flags store2 urls).2.length) := by
  have h1 := main_search_loop_processed fs env flags rows 0 store
  have h2 := main_details_loop_processed denv flags urls 0 store2
  have h0 : flags (0 + j) = true := by simpa using h
  constructor
  · constructor
    · simp only [main_search, h1]
      exact loopTaken_length_le flags rows 0 j h0
    · simp only [main_search, h1]
      exact loopTaken_take flags rows 0
  · constructor
    · simp only [main_details, h2]
      exact loopTaken_length_le flags urls 0 j h0
    · simp only [main_details, h2]
      exact loopTaken_take flags urls 0

def flagsW : Nat → Bool := fun k => decide (1 ≤ k)

/-- Witness for C8: with the flag set from the second boundary check on,
each two-task batch starts exactly its first task. -/
theorem batch_stops_after_flag_w :
    (((main_search ⟨false⟩ env404 flagsW [] [row1, row2]).2.length ≤ 1 ∧
      (main_search ⟨false⟩ env404 flagsW [] [row1, row2]).2
        = [row1, row2].take
            (main_search ⟨false⟩ env404 flagsW [] [row1, row2]).2.length) ∧
     ((main_details denv404 flagsW [] [urlW, urlW]).2.length ≤ 1 ∧
      (main_details denv404 flagsW [] [urlW, urlW]).2
        = [urlW, urlW].take
            (main_details denv404 flagsW [] [urlW, urlW]).2.length)) :=
  batch_stops_after_flag ⟨false⟩ env404 denv404 flagsW [] [] [row1, row2]
    [urlW, urlW] 1 (by decide)

/-- Witness for C3 as amended: a zero-record 200 search run leaves only the
raw-HTML artifact, and a 404 detail run likewise. -/
theorem artifact_pair_conditional_w :
    (Store.isFile (Store.writeFile [] (search_html_name "Jane" "Doe")
        (.html "empty results page")) (search_html_name "Jane" "Doe") = true ∧
     Store.isFile (Store.writeFile [] (search_html_name "Jane" "Doe")
        (.html "empty results page")) (search_json_name "Jane" "Doe")
       = (Store.isFile ([] : Store) (search_json_name "Jane" "Doe")
           || decide (0 < ([] : List Rec).length))) ∧
    (Store.isFile (Store.writeFile [] (details_html_name urlW)
        (.html "Not Found")) (details_html_name urlW) = true ∧
     Store.isFile (Store.writeFile [] (details_html_name urlW)
        (.html "Not Found")) (details_json_name urlW)
       = (Store.isFile ([] : Store) (details_json_name urlW)
           || (none : Option DAttrs).isSome)) :=
  ⟨(artifact_pair_conditional env200 denv404 [] "Jane" "Doe" urlW
      "empty results page" "Not Found" [] none
      (Store.writeFile [] (search_html_name "Jane" "Doe") (.html "empty results page"))
      (Store.writeFile [] (details_html_name urlW) (.html "Not Found")) true true).1
      (by decide) (by rfl) (by rfl),
   (artifact_pair_conditional env200 denv404 [] "Jane" "Doe" urlW
      "empty results page" "Not Found" [] none
      (Store.writeFile [] (details_html_name urlW) (.html "Not Found"))
      (Store.writeFile [] (details_html_name urlW) (.html "Not Found")) true true).2
      (by decide) (by rfl) (by rfl)⟩

/-!  C5: the born/updated date scan. -/

/-- A result block whose text mentions a birth but contains nothing
`dateparser` can recognise as a date. -/
def blockBorn : ResultBlock :=
  { detailUrl := "https://publicdatadigger.com/person/ga/jane-doe"
    detailUrlText := "JANE DOE"
    displayText := "JANE DOE, Born in Georgia"
    homeAddress := none
    emailAddress := none
    phoneNumber := none
    childTexts := ["Born in Georgia"] }

/-- A 200 search page with the single result block `blockBorn`, scraped in
an environment where `search_dates` finds no date (its documented no-match
result is `None`). -/
def env5 : SEnv :=
  { fetch := fun _ => { status := 200, text := "results page", blocks := [blockBorn] }
    searchDates := fun _ => none
    now := "2022-07-10T12:00:00" }

/-- C5: evaluating the search parser at the failing input.  The block text
contains `born` but `search_dates` finds no date and returns `None`, so
`len(srd) > 0` evaluates `len(None)` and the parse aborts with `TypeError`
instead of silently omitting the date fields — the guard `if len(srd)>0`
shows the silent skip was the intent, but `search_dates` returns `None`
rather than an empty list when it finds nothing. -/
theorem born_no_date_raises :
    datadigger_by_name env5 "Jane" "Doe" = .error PyErr.typeError := by
  rfl

/-!  C6: the result-count cap. -/

/-- A minimal date-free result block for cap counterexamples. -/
def b6 : ResultBlock :=
  { detailUrl := "https://publicdatadigger.com/person/ga/a-b"
    detailUrlText := "A B"
    displayText := "A B"
    homeAddress := none
    emailAddress := none
    phoneNumber := none
    childTexts := [] }

/-- The record `b6` parses to. -/
def rec6 : Rec :=
  { detail_url := "https://publicdatadigger.com/person/ga/a-b"
    detail_url_text := "A B"
    display_text := "A B" }

def sd6 : String → Option (List (String × String)) := fun _ => none

/-- A 200 search page carrying 10001 copies of `b6`. -/
def env6 : SEnv :=
  { fetch := fun _ => { status := 200, text := "big page",
                        blocks := List.replicate 10001 b6 }
    searchDates := sd6
    now := "2022-07-10T12:00:00" }

theorem result_record_b6 : result_record sd6 b6 = .ok rec6 := rfl

/-- Closed form of the result loop on replicated blocks: starting at index
`j`, it keeps `min n (MAX+1-j)` blocks and sets the logged-error flag iff it
ran out of capacity before blocks. -/
theorem search_loop_replicate :
    ∀ (n j : Nat), j ≤ MAX_RESULTS_ON_SEARCH_PAGE + 1 →
      search_results_loop sd6 j (List.replicate n b6)
        = .ok (List.replicate (min n (MAX_RESULTS_ON_SEARCH_PAGE + 1 - j)) rec6,
               decide (MAX_RESULTS_ON_SEARCH_PAGE + 1 - j < n))
  | 0, j, hj => by
    simp [search_results_loop]
  | n + 1, j, hj => by
    rw [List.replicate_succ]
    by_cases hcap : MAX_RESULTS_ON_SEARCH_PAGE < j
    · have hj0 : MAX_RESULTS_ON_SEARCH_PAGE + 1 - j = 0 := by omega
      simp [search_results_loop, hcap, hj0]
    · have ih := search_loop_replicate n (j + 1) (by omega)
      have hm : min (n + 1) (MAX_RESULTS_ON_SEARCH_PAGE + 1 - j)
          = min n (MAX_RESULTS_ON_SEARCH_PAGE + 1 - (j + 1)) + 1 := by omega
      have hb : decide (MAX_RESULTS_ON_SEARCH_PAGE + 1 - j < n + 1)
          = decide (MAX_RESULTS_ON_SEARCH_PAGE + 1 - (j + 1) < n) := by
        rw [decide_eq_decide]; omega
      simp only [search_results_loop, hcap, if_false, result_record_b6, ih, hm, hb,
        List.replicate_succ]

/-- C6, counterexample: a page with 10001 result blocks parses to 10001
records — strictly more than `MAX_RESULTS_ON_SEARCH_PAGE` — because the
break condition is `j > MAX`, not `j >= MAX`. -/
theorem search_cap_exceeded_cx :
    datadigger_by_name env6 "Jane" "Doe" = .ok ("big page", List.replicate 10001 rec6) ∧
    MAX_RESULTS_ON_SEARCH_PAGE < (List.replicate 10001 rec6).length := by
  constructor
  · have hM : MAX_RESULTS_ON_SEARCH_PAGE = 10000 := rfl
    have h := search_loop_replicate 10001 0 (Nat.zero_le _)
    have hm : min 10001 (MAX_RESULTS_ON_SEARCH_PAGE + 1 - 0) = 10001 := by omega
    have hb : decide (MAX_RESULTS_ON_SEARCH_PAGE + 1 - 0 < 10001) = false := by
      rw [decide_eq_false_iff_not]; omega
    rw [hm, hb] at h
    have hfetch : env6.fetch (complete_url_with_names "Jane" "Doe")
        = { status := 200, text := "big page", blocks := List.replicate 10001 b6 } := rfl
    have hsd : env6.searchDates = sd6 := rfl
    simp only [datadigger_by_name, hfetch, hsd, eq_self_iff_true, if_true, h]
  · have hM : MAX_RESULTS_ON_SEARCH_PAGE = 10000 := rfl
    rw [List.length_replicate]
    omega

/-- Whenever the result loop returns, it has kept at most `MAX+1-j` records
from start index `j`. -/
theorem search_loop_length_le (sd : String → Option (List (String × String))) :
    ∀ (blocks : List ResultBlock) (j : Nat) (recs : List Rec) (flag : Bool),
      search_results_loop sd j blocks = .ok (recs, flag) →
      recs.length ≤ MAX_RESULTS_ON_SEARCH_PAGE + 1 - j
  | [], j, recs, flag => by
    intro h
    simp only [search_results_loop] at h
    injection h with h2
    have h3 : ([] : List Rec) = recs := congrArg Prod.fst h2
    simp [← h3]
  | b :: rest, j, recs, flag => by
    intro h
    by_cases hcap : MAX_RESULTS_ON_SEARCH_PAGE < j
    · simp only [search_results_loop, hcap, if_true] at h
      injection h with h2
      have h3 : ([] : List Rec) = recs := congrArg Prod.fst h2
      simp [← h3]
    · simp only [search_results_loop, hcap, if_false] at h
      cases hr : result_record sd b with
      | error e => rw [hr] at h; simp at h
      | ok res =>
        rw [hr] at h
        cases hrest : search_results_loop sd (j + 1) rest with
        | error e => rw [hrest] at h; simp at h
        | ok pr2 =>
          obtain ⟨more2, flag3⟩ := pr2
          rw [hrest] at h
          injection h with h2
          have h3 : res :: more2 = recs := congrArg Prod.fst h2
          have ih := search_loop_length_le sd rest (j + 1) more2 flag3 hrest
          rw [← h3]
          simp only [List.length_cons]
          omega

/-- When the loop returns normally but was given more blocks than remaining
capacity, the logged-error flag is set and exactly the capacity was kept. -/
theorem search_loop_over (sd : String → Option (List (String × String))) :
    ∀ (blocks : List ResultBlock) (j : Nat) (recs : List Rec) (flag : Bool),
      search_results_loop sd j blocks = .ok (recs, flag) →
      j ≤ MAX_RESULTS_ON_SEARCH_PAGE + 1 →
      MAX_RESULTS_ON_SEARCH_PAGE + 1 - j < blocks.length →
      flag = true ∧ recs.length = MAX_RESULTS_ON_SEARCH_PAGE + 1 - j
  | [], j, recs, flag => by
    intro _ _ hlen
    simp at hlen
  | b :: rest, j, recs, flag => by
    intro h hj hlen
    by_cases hcap : MAX_RESULTS_ON_SEARCH_PAGE < j
    · have hj0 : MAX_RESULTS_ON_SEARCH_PAGE + 1 - j = 0 := by omega
      simp only [search_results_loop, hcap, if_true] at h
      injection h with h2
      have h3 : ([] : List Rec) = recs := congrArg Prod.fst h2
      have h4 : (true : Bool) = flag := congrArg Prod.snd h2
      simp [← h3, ← h4, hj0]
    · simp only [search_results_loop, hcap, if_false] at h
      cases hr : result_record sd b with
      | error e => rw [hr] at h; simp at h
      | ok res =>
        rw [hr] at h
        cases hrest : search_results_loop sd (j + 1) rest with
        | error e => rw [hrest] at h; simp at h
        | ok pr2 =>
          obtain ⟨more2, flag3⟩ := pr2
          rw [hrest] at h
          injection h with h2
          have h3 : res :: more2 = recs := congrArg Prod.fst h2
          have h4 : flag3 = flag := congrArg Prod.snd h2
          have ih := search_loop_over sd rest (j + 1) more2 flag3 hrest (by omega)
            (by simp only [List.length_cons] at hlen; omega)
          rw [← h3, ← h4]
          constructor
          · exact ih.1
          · simp only [List.length_cons, ih.2]
            omega

/-- C6, amended: the search-results parser returns at most
`MAX_RESULTS_ON_SEARCH_PAGE + 1` (10001) records; when a page carries more
result blocks than that, iteration stops early at index `MAX+1`, the error
flag is logged, and the remaining blocks are dropped without aborting. -/
theorem search_cap_bound (sd : String → Option (List (String × String)))
    (blocks : List ResultBlock) (recs : List Rec) (flag : Bool)
    (h : search_results_loop sd 0 blocks = .ok (recs, flag)) :
    recs.length ≤ MAX_RESULTS_ON_SEARCH_PAGE + 1 ∧
    (MAX_RESULTS_ON_SEARCH_PAGE + 1 < blocks.length →
      flag = true ∧ recs.length = MAX_RESULTS_ON_SEARCH_PAGE + 1) := by
  constructor
  · have h2 := search_loop_length_le sd blocks 0 recs flag h
    omega
  · intro hb
    have h2 := search_loop_over sd blocks 0 recs flag h (by omega) (by omega)
    exact ⟨h2.1, by omega⟩

/-- Witness for C6 as amended, on a one-block page. -/
theorem search_cap_bound_w :
    ([rec6] : List Rec).length ≤ MAX_RESULTS_ON_SEARCH_PAGE + 1 ∧
    (MAX_RESULTS_ON_SEARCH_PAGE + 1 < ([b6] : List ResultBlock).length →
      false = true ∧ ([rec6] : List Rec).length = MAX_RESULTS_ON_SEARCH_PAGE + 1) :=
  search_cap_bound sd6 [b6] [rec6] false (by rfl)

/-!  C7: the aggregator. -/

/-- Accumulator form of the inner aggregation loop: it appends exactly the
lines of the `.json`-suffixed files, counting them. -/
theorem load_search_inner_len :
    ∀ (files : List (String × List Rec)) (acc : List Rec × Nat),
      (load_search_inner acc files).1.length
        = acc.1.length
          + ((files.filter (fun f => Py.endsWith f.1 ".json")).map
              (fun f => f.2.length)).sum
  | [], acc => by simp [load_search_inner]
  | (fname, lines) :: rest, acc => by
    by_cases h : Py.endsWith fname ".json" = true
    · simp only [load_search_inner, h, if_true, List.filter_cons, List.map_cons,
        List.sum_cons, load_search_inner_len rest (acc.1 ++ lines, acc.2 + 1),
        List.length_append]
      omega
    · have hf : Py.endsWith fname ".json" = false := by simpa using h
      simp only [load_search_inner, hf, Bool.false_eq_true, if_false, List.filter_cons,
        load_search_inner_len rest acc]

/-- Accumulator form of the outer aggregation loop. -/
theorem load_search_outer_len :
    ∀ (tree : List (String × List (String × List Rec))) (acc : List Rec × Nat),
      (load_search_outer acc tree).1.length
        = acc.1.length
          + (tree.map (fun e =>
              ((e.2.filter (fun f => Py.endsWith f.1 ".json")).map
                (fun f => f.2.length)).sum)).sum
  | [], acc => by simp [load_search_outer]
  | (last, files) :: rest, acc => by
    simp only [load_search_outer, List.map_cons, List.sum_cons,
      load_search_outer_len rest (load_search_inner acc files),
      load_search_inner_len files acc]
    omega

/-- C7: aggregation completeness.  The aggregated table has exactly one row
per JSON line: its row count equals the sum, over every `.json` artifact in
the two-level store tree, of that artifact's record count; and the empty
store aggregates to the empty table (zero rows, zero files) rather than an
error. -/
theorem aggregation_complete (tree : List (String × List (String × List Rec))) :
    (load_search_results tree).rows.length
      = (tree.map (fun e =>
          ((e.2.filter (fun f => Py.endsWith f.1 ".json")).map
            (fun f => f.2.length)).sum)).sum ∧
    (load_search_results []).rows = [] ∧
    (load_search_results []).number_of_files = 0 := by
  refine ⟨?_, rfl, rfl⟩
  have h := load_search_outer_len tree ([], 0)
  simpa [load_search_results] using h

end PDD

/-!  Claims about the Kickstarter scraper. -/

namespace KS

/-- C9: the `anyState` parameter of `scraping` is never read.  For any fixed
value of the module-level global `any_state`, the run with `anyState = true`
and the run with `anyState = false` select the same project-state query
strings and produce identical results: the state choice depends only on the
global. -/
theorem anyState_param_ignored (env : KEnv) (any_state : Bool)
    (sections : Option (List String)) (limit : Nat) (a b : Bool) :
    scraping env any_state sections a limit = scraping env any_state sections b limit :=
  rfl

/-- Splitting the project list splits the write loop, early return
permitting. -/
theorem kproj_loop_append (limit : Nat) :
    ∀ (a b : List KProject) (st : KState),
      kproj_loop limit st (a ++ b)
        = (if (kproj_loop limit st a).2 then kproj_loop limit st a
           else kproj_loop limit (kproj_loop limit st a).1 b)
  | [], b, st => by simp [kproj_loop]
  | p :: rest, b, st => by
    simp only [List.cons_append, kproj_loop]
    by_cases h : 0 < limit ∧ limit < st.counter + 1
    · simp [h]
    · simp [h, kproj_loop_append limit rest b]

/-- The page loop is the write loop on the concatenated pages. -/
theorem kpage_loop_flatten (limit : Nat) :
    ∀ (pgs : List (List KProject)) (st : KState),
      kpage_loop limit st pgs = kproj_loop limit st pgs.flatten
  | [], st => rfl
  | pg :: rest, st => by
    simp only [kpage_loop, List.flatten_cons, kproj_loop_append]
    rcases hp : kproj_loop limit st pg with ⟨st1, early⟩
    cases early
    · simp [hp, kpage_loop_flatten limit rest st1]
    · simp [hp]

/-- The state loop is the write loop on its flattened pages. -/
theorem kstate_loop_flatten (env : KEnv) (limit : Nat) (category_id : Int) :
    ∀ (sl : List (String × String)) (st : KState),
      kstate_loop env limit category_id st sl
        = kproj_loop limit st (state_projects env category_id sl)
  | [], st => rfl
  | e :: rest, st => by
    simp only [kstate_loop, state_projects, kproj_loop_append, ← kpage_loop_flatten]
    rcases hp : kpage_loop limit st (env.pages (mkBaseUrl e.2 category_id)) with ⟨st1, early⟩
    cases early
    · simp [hp, kstate_loop_flatten env limit category_id rest st1]
    · simp [hp]

/-- The section loop is the write loop on its flattened projects. -/
theorem ksect_loop_flatten (env : KEnv) (limit : Nat) (stloop : List (String × String)) :
    ∀ (sects : List String) (st : KState),
      ksect_loop env limit stloop st sects
        = kproj_loop limit st (sect_projects env stloop sects)
  | [], st => rfl
  | sect :: rest, st => by
    by_cases hcid : ((List.lookup sect cat_dict).getD (-1) : Int) < 0
    · simp only [ksect_loop, sect_projects, hcid, if_true,
        ksect_loop_flatten env limit stloop rest st]
    · simp only [ksect_loop, sect_projects, hcid, if_false, kproj_loop_append,
        ← kstate_loop_flatten]
      rcases hp : kstate_loop env limit ((List.lookup sect cat_dict).getD (-1)) st stloop
        with ⟨st1, early⟩
      cases early
      · simp [hp, ksect_loop_flatten env limit stloop rest st1]
      · simp [hp]

/-- From a counter not already past the limit, the write loop writes
`min available (limit + 1 - counter)` further files when the limit is
positive: one write happens before each limit check. -/
theorem kproj_loop_len (limit : Nat) :
    ∀ (ps : List KProject) (st : KState), 0 < limit → st.counter ≤ limit →
      (kproj_loop limit st ps).1.writes.length
        = st.writes.length + min ps.length (limit + 1 - st.counter)
  | [], st, _, _ => by simp [kproj_loop]
  | p :: rest, st, hl, hc => by
    simp only [kproj_loop]
    by_cases h : 0 < limit ∧ limit < st.counter + 1
    · simp only [h, and_self, if_true, List.length_append, List.length_cons,
        List.length_nil, List.length_singleton]
      omega
    · have hc2 : st.counter + 1 ≤ limit := by
        rcases Decidable.not_and_iff_or_not.mp h with h2 | h2
        · omega
        · omega
      simp only [h, if_false]
      have ih := kproj_loop_len limit rest ⟨st.counter + 1, st.writes ++ [p]⟩ hl hc2
      dsimp only at ih
      simp only [List.length_append, List.length_singleton] at ih
      simp only [ih, List.length_cons]
      omega

/-- C10: test-mode limit overshoot.  `scraping` writes each project file and
increments the counter before checking the limit, so for every positive
`limit`, when at least `limit + 1` projects are available across the
selected sections, exactly `limit + 1` project files are written before the
early return — strictly more than `limit`. -/
theorem limit_overshoot (env : KEnv) (any_state : Bool)
    (sections : Option (List String)) (anyState : Bool) (limit : Nat)
    (h1 : 0 < limit)
    (h2 : limit + 1 ≤ (kickstarter_available env any_state sections).length) :
    (scraping env any_state sections anyState limit).2.length = limit + 1 := by
  simp only [scraping, ksect_loop_flatten]
  have hlen := kproj_loop_len limit
    (sect_projects env (stloop_of any_state) (sections.getD (cat_dict.map Prod.fst)))
    ⟨0, []⟩ h1 (Nat.zero_le limit)
  dsimp only at hlen
  simp only [List.length_nil, Nat.zero_add, Nat.sub_zero] at hlen
  simp only [kickstarter_available] at h2
  simp only [hlen]
  omega

def pK1 : KProject := ⟨"101", "design"⟩

def pK2 : KProject := ⟨"102", "design"⟩

/-- A one-category environment with a single two-project page. -/
def kenv0 : KEnv :=
  { pages := fun u => if u == mkBaseUrl "" 7 then [[pK1, pK2]] else [] }

/-- Witness for C10: two projects available, `limit = 1`, two files
written. -/
theorem limit_overshoot_w :
    (scraping kenv0 true (some ["design"]) true 1).2.length = 1 + 1 :=
  limit_overshoot kenv0 true (some ["design"]) true 1 (by decide) (by decide)

end KS
